import Mathlib

/-!
Shallow embedding of src/main.py (Transaction Risk Scoring service).

Modelling conventions:
* Python floats are modelled as rationals (the policy thresholds 0.3, 0.6,
  0.8 and all validation bounds are exact decimals).
* Wall-clock time is a frozen counter `clock` in the service state; the
  model never advances it, so elapsed processing time is 0.  No claim
  concerns latency values.
* `uuid.uuid4()` is modelled as a supply of pairwise distinct tokens
  indexed by `uuid_counter`; each draw consumes one token.  This captures
  exactly the "randomly generated unique token" contract.
* `hashlib.sha256(...).hexdigest()` is an external library function; it is
  modelled as an arbitrary digest parameter `digest : String → String`
  applied to the canonical string of the features dict, so every theorem
  holds for the real digest.  `featureCanonicalString` transliterates
  Python `str(features_dict)` (insertion order = field declaration order);
  the exact quoting of the Python repr is immaterial, the field order and
  the fact that the string depends on exactly the seven feature values
  match the source.
* The predictor `model.predict_proba(v)[0][1]` is an external artifact; a
  call either returns a probability, raises `ValueError`, or raises some
  other exception: `PredOutcome`.
* The Prometheus `PREDICTION_COUNTER` is a map from the label triple
  `(model_version, risk_level, status)` to a count; the
  `HIGH_RISK_TRANSACTIONS` gauge is a count (the source only ever calls
  `.inc()` on it).  The latency histogram is wall-clock-valued and carries
  no claim, so it is not part of the state.
-/

/-- main.py line 60: `MODEL_VERSION = os.getenv("MODEL_VERSION", "v1.0.0")` (default). -/
def MODEL_VERSION : String := "v1.0.0"

/-- main.py line 61: `ENVIRONMENT = os.getenv("ENVIRONMENT", "production")` (default). -/
def ENVIRONMENT : String := "production"

/-- main.py lines 67-81: the `TransactionFeatures` pydantic model (raw field values,
before validation). -/
structure TransactionFeatures where
  transaction_amount_usd : ℚ
  sender_age_days : ℤ
  transactions_last_24h : ℤ
  avg_transaction_amount : ℚ
  sender_country_risk_score : ℚ
  is_new_recipient : Bool
  hour_of_day : ℤ
deriving DecidableEq

/-- main.py lines 84-88: `RiskScoreRequest`. -/
structure RiskScoreRequest where
  transaction_id : String
  features : TransactionFeatures
  customer_id : Option String
deriving DecidableEq

/-- main.py lines 144-154: an entry of `audit_logs`. -/
structure AuditEntry where
  timestamp : ℕ
  transaction_id : String
  customer_id : Option String
  risk_score : ℚ
  risk_level : String
  recommendation : String
  model_version : String
  environment : String
  correlation_id : String
deriving DecidableEq

/-- main.py lines 91-101: `RiskScoreResponse`. -/
structure RiskScoreResponse where
  transaction_id : String
  risk_score : ℚ
  risk_level : String
  recommendation : String
  model_version : String
  timestamp : ℕ
  correlation_id : String
  features_hash : String
  processing_time_ms : ℚ
deriving DecidableEq

/-- State of the Prometheus metrics the scoring path touches:
`PREDICTION_COUNTER` (lines 35-39, labels `model_version, risk_level, status`)
and the `HIGH_RISK_TRANSACTIONS` gauge (lines 48-51). -/
structure Metrics where
  prediction_counter : String × String × String → ℕ
  high_risk_gauge : ℕ

/-- Process-wide mutable state of the service: metrics, the in-memory
`audit_logs` list (line 64), the uuid supply and the frozen clock. -/
structure ServiceState where
  metrics : Metrics
  audit_logs : List AuditEntry
  uuid_counter : ℕ
  clock : ℕ

/-- Fresh process state: empty audit log, all counters zero. -/
def initialState : ServiceState :=
  { metrics := { prediction_counter := fun _ => 0, high_risk_gauge := 0 },
    audit_logs := [], uuid_counter := 0, clock := 0 }

/-- The n-th token of the uuid supply; tokens are pairwise distinct. -/
def uuidString (n : ℕ) : String := "uuid-" ++ toString n

/-- Draw a fresh token from the uuid supply (`str(uuid.uuid4())`). -/
def freshUuidDraw (s : ServiceState) : String × ServiceState :=
  (uuidString s.uuid_counter, { s with uuid_counter := s.uuid_counter + 1 })

/-- Outcome of calling the external predictor (`model.predict_proba`):
a probability, a raised `ValueError`, or some other raised exception. -/
inductive PredOutcome where
  | ok (p : ℚ)
  | valueError (msg : String)
  | otherError (msg : String)
deriving DecidableEq

/-- main.py lines 67-81: the pydantic field bounds of `TransactionFeatures`
(`Field(..., ge=..., le=...)`) plus the `validate_amount` field validator
(lines 77-81).  Pydantic validates fields in declaration order and the
custom validator for `transaction_amount_usd` runs with that field; the
embedding reports the first violated constraint, naming the field
(FastAPI's 422 body names the offending field in `loc` and the bound in
`msg`).  Returns the parsed value only when every bound holds. -/
def validateFeatures (f : TransactionFeatures) : Except String TransactionFeatures :=
  if f.transaction_amount_usd < 0 then
    Except.error "transaction_amount_usd: ensure this value is greater than or equal to 0"
  else if 1000000 < f.transaction_amount_usd then
    Except.error "Transaction amount exceeds maximum limit"
  else if f.sender_age_days < 0 then
    Except.error "sender_age_days: ensure this value is greater than or equal to 0"
  else if f.transactions_last_24h < 0 then
    Except.error "transactions_last_24h: ensure this value is greater than or equal to 0"
  else if 1000 < f.transactions_last_24h then
    Except.error "transactions_last_24h: ensure this value is less than or equal to 1000"
  else if f.avg_transaction_amount < 0 then
    Except.error "avg_transaction_amount: ensure this value is greater than or equal to 0"
  else if f.sender_country_risk_score < 0 then
    Except.error "sender_country_risk_score: ensure this value is greater than or equal to 0"
  else if 1 < f.sender_country_risk_score then
    Except.error "sender_country_risk_score: ensure this value is less than or equal to 1"
  else if f.hour_of_day < 0 then
    Except.error "hour_of_day: ensure this value is greater than or equal to 0"
  else if 23 < f.hour_of_day then
    Except.error "hour_of_day: ensure this value is less than or equal to 23"
  else Except.ok f

/-- The bounds of main.py lines 67-81 as a predicate. -/
def WithinBounds (f : TransactionFeatures) : Prop :=
  0 ≤ f.transaction_amount_usd ∧ f.transaction_amount_usd ≤ 1000000 ∧
  0 ≤ f.sender_age_days ∧
  0 ≤ f.transactions_last_24h ∧ f.transactions_last_24h ≤ 1000 ∧
  0 ≤ f.avg_transaction_amount ∧
  0 ≤ f.sender_country_risk_score ∧ f.sender_country_risk_score ≤ 1 ∧
  0 ≤ f.hour_of_day ∧ f.hour_of_day ≤ 23

instance (f : TransactionFeatures) : Decidable (WithinBounds f) := by
  unfold WithinBounds; infer_instance

/-- main.py lines 236-244: the fixed-order feature vector fed to the predictor. -/
def feature_vector (f : TransactionFeatures) : List ℚ :=
  [f.transaction_amount_usd,
   (f.sender_age_days : ℚ),
   (f.transactions_last_24h : ℚ),
   f.avg_transaction_amount,
   f.sender_country_risk_score,
   if f.is_new_recipient then 1 else 0,
   (f.hour_of_day : ℚ)]

/-- main.py lines 246-249: the canonical string `str(features_dict)` that is fed to
`hashlib.sha256`; a pure function of exactly the seven feature values, in
field-declaration order. -/
def featureCanonicalString (f : TransactionFeatures) : String :=
  "\x7b" ++ "transaction_amount_usd: " ++ toString f.transaction_amount_usd ++
  ", sender_age_days: " ++ toString f.sender_age_days ++
  ", transactions_last_24h: " ++ toString f.transactions_last_24h ++
  ", avg_transaction_amount: " ++ toString f.avg_transaction_amount ++
  ", sender_country_risk_score: " ++ toString f.sender_country_risk_score ++
  ", is_new_recipient: " ++ toString f.is_new_recipient ++
  ", hour_of_day: " ++ toString f.hour_of_day ++ "\x7d"

/-- main.py lines 256-267: the threshold table mapping a probability to
`(risk_level, recommendation)`. -/
def riskPolicy (p : ℚ) : String × String :=
  if p < mkRat 3 10 then ("LOW", "APPROVE")
  else if p < mkRat 6 10 then ("MEDIUM", "REVIEW")
  else if p < mkRat 8 10 then ("HIGH", "REVIEW")
  else ("CRITICAL", "REJECT")

/-- Round `q` to a multiple of `1/k`, ties to even (Python `round(x, digits)`
with `k = 10 ^ digits`): the scaled value `q * k` is `(q.num * k) / q.den`,
its floor and remainder are taken by integer division, and the remainder is
compared against half the denominator. -/
def roundToDen (q : ℚ) (k : ℕ) : ℚ :=
  let n : ℤ := q.num * k
  let fl : ℤ := Int.fdiv n q.den
  let r2 : ℤ := 2 * (n - fl * q.den)
  mkRat (if r2 < (q.den : ℤ) then fl
         else if (q.den : ℤ) < r2 then fl + 1
         else if fl % 2 = 0 then fl else fl + 1) k

/-- Python `round(x, 4)`. -/
def round4 (q : ℚ) : ℚ := roundToDen q 10000

/-- Python `round(x, 2)`. -/
def round2 (q : ℚ) : ℚ := roundToDen q 100

/-- `PREDICTION_COUNTER.labels(model_version=MODEL_VERSION, risk_level=rl, status=st).inc()`. -/
def incPrediction (s : ServiceState) (rl st : String) : ServiceState :=
  { s with metrics :=
      { s.metrics with prediction_counter := fun x =>
          if x = (MODEL_VERSION, rl, st) then s.metrics.prediction_counter x + 1
          else s.metrics.prediction_counter x } }

/-- main.py line 279: `HIGH_RISK_TRANSACTIONS.inc()`. -/
def incHighRiskGauge (s : ServiceState) : ServiceState :=
  { s with metrics := { s.metrics with high_risk_gauge := s.metrics.high_risk_gauge + 1 } }

/-- main.py line 223: `correlation_id = x_correlation_id or str(uuid.uuid4())`.
An absent header, and also an empty header (falsy in Python), draw a fresh token. -/
def resolveCorrelationId (hdr : Option String) (s : ServiceState) : String × ServiceState :=
  match hdr with
  | some v => if v = "" then freshUuidDraw s else (v, s)
  | none => freshUuidDraw s

/-- main.py lines 135-157: `create_audit_log` builds the entry appended to
`audit_logs`; `t` is the current clock reading (`datetime.utcnow()`). -/
def mkAuditEntry (req : RiskScoreRequest) (cid : String) (p : ℚ) (t : ℕ) : AuditEntry :=
  { timestamp := t,
    transaction_id := req.transaction_id,
    customer_id := req.customer_id,
    risk_score := p,
    risk_level := (riskPolicy p).1,
    recommendation := (riskPolicy p).2,
    model_version := MODEL_VERSION,
    environment := ENVIRONMENT,
    correlation_id := cid }

/-- main.py lines 297-307: the success response body.  The audited score is the
raw probability `p`; the response carries `round(risk_score, 4)`.  The clock
never advances in the model, so the elapsed time is 0 ms. -/
def mkResponse (digest : String → String) (req : RiskScoreRequest) (cid : String)
    (p : ℚ) (t : ℕ) : RiskScoreResponse :=
  { transaction_id := req.transaction_id,
    risk_score := round4 p,
    risk_level := (riskPolicy p).1,
    recommendation := (riskPolicy p).2,
    model_version := MODEL_VERSION,
    timestamp := t,
    correlation_id := cid,
    features_hash := digest (featureCanonicalString req.features),
    processing_time_ms := round2 0 }

/-- Result of the `/score` handler body, tagged by how it terminates:
success payload, 503 (model not loaded), 400 (the `except ValueError`
branch, lines 309-316), 422 (request-body validation rejected by the
framework before the handler runs), or 500 (the `except Exception`
branch, lines 318-325). -/
inductive ScoreOutcome where
  | success (resp : RiskScoreResponse)
  | serviceUnavailable
  | validationError (detail : String)
  | unprocessable (detail : String)
  | internalError
deriving DecidableEq

/-- main.py lines 269-307: the success path of `score_transaction` after the
predictor returned probability `p`: increment the success counter for the
level, bump the high-risk gauge for HIGH/CRITICAL, append the audit entry
(raw probability), and assemble the response (rounded probability). -/
def scoreSuccess (digest : String → String) (req : RiskScoreRequest) (cid : String)
    (p : ℚ) (s1 : ServiceState) : ScoreOutcome × ServiceState :=
  let lvl := riskPolicy p
  let s2 := incPrediction s1 lvl.1 "success"
  let s3 := if lvl.1 = "HIGH" ∨ lvl.1 = "CRITICAL" then incHighRiskGauge s2 else s2
  let s4 := { s3 with audit_logs := s3.audit_logs ++ [mkAuditEntry req cid p s1.clock] }
  (ScoreOutcome.success (mkResponse digest req cid p s4.clock), s4)

/-- main.py lines 215-325: the body of the `/score` handler
`score_transaction`, invoked on an already-parsed request.  `model` is the
loaded predictor (`none` when no model is loaded); the predictor consumes
the fixed-order feature vector. -/
def score_transaction (digest : String → String) (model : Option (List ℚ → PredOutcome))
    (req : RiskScoreRequest) (hdr : Option String) (s : ServiceState) :
    ScoreOutcome × ServiceState :=
  let cid := (resolveCorrelationId hdr s).1
  let s1 := (resolveCorrelationId hdr s).2
  match model with
  | none => (ScoreOutcome.serviceUnavailable, incPrediction s1 "ERROR" "error")
  | some pred =>
    match pred (feature_vector req.features) with
    | PredOutcome.ok p => scoreSuccess digest req cid p s1
    | PredOutcome.valueError msg =>
        (ScoreOutcome.validationError ("Invalid input: " ++ msg),
         incPrediction s1 "ERROR" "validation_error")
    | PredOutcome.otherError _ =>
        (ScoreOutcome.internalError, incPrediction s1 "ERROR" "error")

/-- main.py lines 177-183: the `add_correlation_id` middleware computes the
value echoed in the `X-Correlation-ID` response header.  Python evaluates
`request.headers.get("X-Correlation-ID", str(uuid.uuid4()))` by always
evaluating the default, so a token is drawn on every request and used only
when the header is absent; an empty header is present, hence echoed as is. -/
def middlewareEcho (hdr : Option String) (s : ServiceState) : String × ServiceState :=
  ((match hdr with
    | some v => v
    | none => (freshUuidDraw s).1),
   (freshUuidDraw s).2)

/-- An HTTP response to `/score`: the handler outcome plus the
`X-Correlation-ID` response header set by the middleware. -/
structure HttpResponse where
  result : ScoreOutcome
  x_correlation_id_header : String
deriving DecidableEq

/-- Full processing of a `/score` request: the middleware fixes the echo
header, then the framework validates the `RiskScoreRequest` body per the
pydantic bounds (a failure is a 422 and the handler body never runs), then
the handler body runs. -/
def handle_score_request (digest : String → String) (model : Option (List ℚ → PredOutcome))
    (req : RiskScoreRequest) (hdr : Option String) (s : ServiceState) :
    HttpResponse × ServiceState :=
  let echo := (middlewareEcho hdr s).1
  let s1 := (middlewareEcho hdr s).2
  match validateFeatures req.features with
  | Except.error msg =>
      ({ result := ScoreOutcome.unprocessable msg, x_correlation_id_header := echo }, s1)
  | Except.ok _ =>
      ({ result := (score_transaction digest model req hdr s1).1,
         x_correlation_id_header := echo },
       (score_transaction digest model req hdr s1).2)

/-- Python `logs[-limit:]` (main.py line 342): a positive limit keeps the last
`limit` entries; limit 0 keeps everything (`-0 == 0`); a negative limit
drops the first `-limit` entries. -/
def pythonTail (limit : ℤ) (l : List AuditEntry) : List AuditEntry :=
  if 0 < limit then l.drop (l.length - limit.toNat) else l.drop (-limit).toNat

/-- main.py lines 334-343: the `/audit-logs` endpoint returns the total count and
`audit_logs[-limit:]` (default limit 100). -/
def get_audit_logs (limit : ℤ) (logs : List AuditEntry) : ℕ × List AuditEntry :=
  (logs.length, pythonTail limit logs)

/-- An operation against the running service, for traces of the shared state:
a `/score` request (with the model that is loaded at that moment) or an
`/audit-logs` read. -/
inductive ServiceEvent where
  | scoreReq (model : Option (List ℚ → PredOutcome)) (req : RiskScoreRequest) (hdr : Option String)
  | auditRead (limit : ℤ)

/-- Effect of one service operation on the shared state (an audit read does
not modify state). -/
def stepEvent (digest : String → String) (s : ServiceState) (e : ServiceEvent) : ServiceState :=
  match e with
  | ServiceEvent.scoreReq m req hdr => (handle_score_request digest m req hdr s).2
  | ServiceEvent.auditRead _ => s

/-- Run a sequence of service operations from a state. -/
def runTrace (digest : String → String) (s : ServiceState) (es : List ServiceEvent) :
    ServiceState :=
  es.foldl (stepEvent digest) s

/-- Whether a service operation is a successfully scored request whose risk
level is HIGH or CRITICAL (a pure function of the event: model loaded,
features within bounds, predictor returns a probability in a high bucket). -/
def isHighRiskSuccess (e : ServiceEvent) : Bool :=
  match e with
  | ServiceEvent.scoreReq (some pred) req _ =>
    match validateFeatures req.features with
    | Except.ok _ =>
      match pred (feature_vector req.features) with
      | PredOutcome.ok p =>
          if (riskPolicy p).1 = "HIGH" ∨ (riskPolicy p).1 = "CRITICAL" then true else false
      | PredOutcome.valueError _ => false
      | PredOutcome.otherError _ => false
    | Except.error _ => false
  | _ => false

/-- The counter map `c2` is `c1` with exactly one cell incremented by one. -/
def IncrementedOnce (c1 c2 : String × String × String → ℕ) : Prop :=
  ∃ l, ∀ x, c2 x = if x = l then c1 x + 1 else c1 x

/-! ### State-preservation helper lemmas -/

@[simp] lemma freshUuidDraw_metrics (s : ServiceState) :
    (freshUuidDraw s).2.metrics = s.metrics := rfl

@[simp] lemma freshUuidDraw_audit (s : ServiceState) :
    (freshUuidDraw s).2.audit_logs = s.audit_logs := rfl

@[simp] lemma freshUuidDraw_clock (s : ServiceState) :
    (freshUuidDraw s).2.clock = s.clock := rfl

@[simp] lemma middlewareEcho_state (hdr : Option String) (s : ServiceState) :
    (middlewareEcho hdr s).2 = (freshUuidDraw s).2 := rfl

@[simp] lemma resolve_metrics (hdr : Option String) (s : ServiceState) :
    (resolveCorrelationId hdr s).2.metrics = s.metrics := by
  cases hdr with
  | none => rfl
  | some v =>
    simp only [resolveCorrelationId]
    split_ifs <;> rfl

@[simp] lemma resolve_audit (hdr : Option String) (s : ServiceState) :
    (resolveCorrelationId hdr s).2.audit_logs = s.audit_logs := by
  cases hdr with
  | none => rfl
  | some v =>
    simp only [resolveCorrelationId]
    split_ifs <;> rfl

@[simp] lemma resolve_clock (hdr : Option String) (s : ServiceState) :
    (resolveCorrelationId hdr s).2.clock = s.clock := by
  cases hdr with
  | none => rfl
  | some v =>
    simp only [resolveCorrelationId]
    split_ifs <;> rfl

@[simp] lemma incPrediction_counter (s : ServiceState) (rl st : String) :
    (incPrediction s rl st).metrics.prediction_counter = fun x =>
      if x = (MODEL_VERSION, rl, st) then s.metrics.prediction_counter x + 1
      else s.metrics.prediction_counter x := rfl

@[simp] lemma incPrediction_gauge (s : ServiceState) (rl st : String) :
    (incPrediction s rl st).metrics.high_risk_gauge = s.metrics.high_risk_gauge := rfl

@[simp] lemma incPrediction_audit (s : ServiceState) (rl st : String) :
    (incPrediction s rl st).audit_logs = s.audit_logs := rfl

@[simp] lemma incHighRiskGauge_counter (s : ServiceState) :
    (incHighRiskGauge s).metrics.prediction_counter = s.metrics.prediction_counter := rfl

@[simp] lemma incHighRiskGauge_gauge (s : ServiceState) :
    (incHighRiskGauge s).metrics.high_risk_gauge = s.metrics.high_risk_gauge + 1 := rfl

@[simp] lemma incHighRiskGauge_audit (s : ServiceState) :
    (incHighRiskGauge s).audit_logs = s.audit_logs := rfl

/-! ### Branch characterization lemmas for the handler -/

lemma score_transaction_none (digest : String → String) (req : RiskScoreRequest)
    (hdr : Option String) (s : ServiceState) :
    score_transaction digest none req hdr s =
      (ScoreOutcome.serviceUnavailable,
       incPrediction (resolveCorrelationId hdr s).2 "ERROR" "error") := rfl

lemma score_transaction_ok (digest : String → String) (pred : List ℚ → PredOutcome)
    (req : RiskScoreRequest) (hdr : Option String) (s : ServiceState) (p : ℚ)
    (h : pred (feature_vector req.features) = PredOutcome.ok p) :
    score_transaction digest (some pred) req hdr s =
      scoreSuccess digest req (resolveCorrelationId hdr s).1 p
        (resolveCorrelationId hdr s).2 := by
  simp only [score_transaction, h]

lemma score_transaction_valueError (digest : String → String)
    (pred : List ℚ → PredOutcome) (req : RiskScoreRequest) (hdr : Option String)
    (s : ServiceState) (msg : String)
    (h : pred (feature_vector req.features) = PredOutcome.valueError msg) :
    score_transaction digest (some pred) req hdr s =
      (ScoreOutcome.validationError ("Invalid input: " ++ msg),
       incPrediction (resolveCorrelationId hdr s).2 "ERROR" "validation_error") := by
  simp only [score_transaction, h]

lemma score_transaction_otherError (digest : String → String)
    (pred : List ℚ → PredOutcome) (req : RiskScoreRequest) (hdr : Option String)
    (s : ServiceState) (msg : String)
    (h : pred (feature_vector req.features) = PredOutcome.otherError msg) :
    score_transaction digest (some pred) req hdr s =
      (ScoreOutcome.internalError,
       incPrediction (resolveCorrelationId hdr s).2 "ERROR" "error") := by
  simp only [score_transaction, h]

lemma scoreSuccess_fst (digest : String → String) (req : RiskScoreRequest)
    (cid : String) (p : ℚ) (s1 : ServiceState) :
    (scoreSuccess digest req cid p s1).1 =
      ScoreOutcome.success (mkResponse digest req cid p s1.clock) := by
  simp only [scoreSuccess]
  split_ifs <;> rfl

lemma scoreSuccess_audit (digest : String → String) (req : RiskScoreRequest)
    (cid : String) (p : ℚ) (s1 : ServiceState) :
    (scoreSuccess digest req cid p s1).2.audit_logs =
      s1.audit_logs ++ [mkAuditEntry req cid p s1.clock] := by
  simp only [scoreSuccess]
  split_ifs <;> rfl

lemma scoreSuccess_counter (digest : String → String) (req : RiskScoreRequest)
    (cid : String) (p : ℚ) (s1 : ServiceState) :
    (scoreSuccess digest req cid p s1).2.metrics.prediction_counter =
      (incPrediction s1 (riskPolicy p).1 "success").metrics.prediction_counter := by
  simp only [scoreSuccess]
  split_ifs <;> rfl

lemma scoreSuccess_gauge (digest : String → String) (req : RiskScoreRequest)
    (cid : String) (p : ℚ) (s1 : ServiceState) :
    (scoreSuccess digest req cid p s1).2.metrics.high_risk_gauge =
      (if (riskPolicy p).1 = "HIGH" ∨ (riskPolicy p).1 = "CRITICAL"
       then s1.metrics.high_risk_gauge + 1 else s1.metrics.high_risk_gauge) := by
  simp only [scoreSuccess]
  split_ifs <;> rfl

lemma handle_score_request_invalid (digest : String → String)
    (model : Option (List ℚ → PredOutcome)) (req : RiskScoreRequest)
    (hdr : Option String) (s : ServiceState) (msg : String)
    (h : validateFeatures req.features = Except.error msg) :
    handle_score_request digest model req hdr s =
      ({ result := ScoreOutcome.unprocessable msg,
         x_correlation_id_header := (middlewareEcho hdr s).1 },
       (middlewareEcho hdr s).2) := by
  simp only [handle_score_request, h]

lemma handle_score_request_valid (digest : String → String)
    (model : Option (List ℚ → PredOutcome)) (req : RiskScoreRequest)
    (hdr : Option String) (s : ServiceState) (f : TransactionFeatures)
    (h : validateFeatures req.features = Except.ok f) :
    handle_score_request digest model req hdr s =
      ({ result := (score_transaction digest model req hdr (middlewareEcho hdr s).2).1,
         x_correlation_id_header := (middlewareEcho hdr s).1 },
       (score_transaction digest model req hdr (middlewareEcho hdr s).2).2) := by
  simp only [handle_score_request, h]

/-! ### Concrete fixtures (the section-8 scenario features of the spec) -/

/-- The end-to-end scenario feature set of spec section 8. -/
def baseFeatures : TransactionFeatures :=
  { transaction_amount_usd := 50000, sender_age_days := 2, transactions_last_24h := 15,
    avg_transaction_amount := 200, sender_country_risk_score := mkRat 9 10,
    is_new_recipient := true, hour_of_day := 3 }

/-- A concrete request around `baseFeatures`. -/
def reqT1 : RiskScoreRequest :=
  { transaction_id := "T1", features := baseFeatures, customer_id := none }

/-- A second request, different transaction but field-for-field equal features. -/
def reqT2 : RiskScoreRequest :=
  { transaction_id := "T2", features := baseFeatures, customer_id := some "C9" }

/-- The identity digest, a concrete instance of the external hash. -/
def digestId : String → String := fun x => x

/-- A loaded predictor that always returns probability 0.1. -/
def modelLow : Option (List ℚ → PredOutcome) := some (fun _ => PredOutcome.ok (mkRat 1 10))

/-! ### C1 -/

@[simp] lemma mkRat_three_tenths : (mkRat 3 10 : ℚ) = 3/10 := by
  rw [Rat.mkRat_eq_divInt, Rat.divInt_eq_div]; norm_num

@[simp] lemma mkRat_six_tenths : (mkRat 6 10 : ℚ) = 6/10 := by
  rw [Rat.mkRat_eq_divInt, Rat.divInt_eq_div]; norm_num

@[simp] lemma mkRat_eight_tenths : (mkRat 8 10 : ℚ) = 8/10 := by
  rw [Rat.mkRat_eq_divInt, Rat.divInt_eq_div]; norm_num

lemma riskPolicy_low (p : ℚ) (h : p < 3/10) :
    riskPolicy p = ("LOW", "APPROVE") := by
  simp only [riskPolicy, mkRat_three_tenths]
  rw [if_pos h]

lemma riskPolicy_medium (p : ℚ) (hlo : 3/10 ≤ p) (hhi : p < 6/10) :
    riskPolicy p = ("MEDIUM", "REVIEW") := by
  simp only [riskPolicy, mkRat_three_tenths, mkRat_six_tenths]
  rw [if_neg (not_lt.mpr hlo), if_pos hhi]

lemma riskPolicy_high (p : ℚ) (hlo : 6/10 ≤ p) (hhi : p < 8/10) :
    riskPolicy p = ("HIGH", "REVIEW") := by
  have h1 : ¬ p < 3/10 := not_lt.mpr (by linarith)
  simp only [riskPolicy, mkRat_three_tenths, mkRat_six_tenths, mkRat_eight_tenths]
  rw [if_neg h1, if_neg (not_lt.mpr hlo), if_pos hhi]

lemma riskPolicy_critical (p : ℚ) (hlo : 8/10 ≤ p) :
    riskPolicy p = ("CRITICAL", "REJECT") := by
  have h1 : ¬ p < 3/10 := not_lt.mpr (by linarith)
  have h2 : ¬ p < 6/10 := not_lt.mpr (by linarith)
  simp only [riskPolicy, mkRat_three_tenths, mkRat_six_tenths, mkRat_eight_tenths]
  rw [if_neg h1, if_neg h2, if_neg (not_lt.mpr hlo)]

/-- C1: for every probability p in [0,1], the pipeline threshold table
(`riskPolicy`, main.py lines 256-267) assigns risk level and recommendation
exactly per the table: [0,0.3) gives LOW/APPROVE, [0.3,0.6) gives
MEDIUM/REVIEW, [0.6,0.8) gives HIGH/REVIEW, [0.8,1] gives CRITICAL/REJECT,
each boundary value going to the upper bucket. -/
theorem riskPolicy_thresholds :
    ∀ p : ℚ,
      ((0 ≤ p ∧ p < 3/10) → riskPolicy p = ("LOW", "APPROVE")) ∧
      ((3/10 ≤ p ∧ p < 6/10) → riskPolicy p = ("MEDIUM", "REVIEW")) ∧
      ((6/10 ≤ p ∧ p < 8/10) → riskPolicy p = ("HIGH", "REVIEW")) ∧
      ((8/10 ≤ p ∧ p ≤ 1) → riskPolicy p = ("CRITICAL", "REJECT")) ∧
      riskPolicy (3/10) = ("MEDIUM", "REVIEW") ∧
      riskPolicy (6/10) = ("HIGH", "REVIEW") ∧
      riskPolicy (8/10) = ("CRITICAL", "REJECT") := by
  intro p
  exact ⟨fun h => riskPolicy_low p h.2, fun h => riskPolicy_medium p h.1 h.2,
    fun h => riskPolicy_high p h.1 h.2, fun h => riskPolicy_critical p h.1,
    riskPolicy_medium (3/10) le_rfl (by norm_num),
    riskPolicy_high (6/10) le_rfl (by norm_num),
    riskPolicy_critical (8/10) le_rfl⟩

/-- Witness for C1: the CRITICAL bucket evaluated at probability 0.85. -/
theorem riskPolicy_thresholds_witness :
    ((8/10 : ℚ) ≤ 85/100 ∧ (85/100 : ℚ) ≤ 1) ∧
      riskPolicy (85/100) = ("CRITICAL", "REJECT") :=
  ⟨by norm_num, (riskPolicy_thresholds (85/100)).2.2.2.1 ⟨by norm_num, by norm_num⟩⟩

/-! ### C2 -/

set_option maxHeartbeats 1000000 in
lemma validateFeatures_ok_eq (f g : TransactionFeatures)
    (h : validateFeatures f = Except.ok g) : g = f := by
  unfold validateFeatures at h
  split_ifs at h
  all_goals first
  | exact Except.noConfusion h
  | (injection h with h2; exact h2.symm)

set_option maxHeartbeats 1000000 in
lemma validateFeatures_ok_iff (f : TransactionFeatures) :
    validateFeatures f = Except.ok f ↔ WithinBounds f := by
  constructor
  · intro h
    unfold validateFeatures at h
    split_ifs at h with h1 h2 h3 h4 h5 h6 h7 h8 h9 h10
    exact ⟨not_lt.mp h1, not_lt.mp h2, not_lt.mp h3, not_lt.mp h4, not_lt.mp h5,
      not_lt.mp h6, not_lt.mp h7, not_lt.mp h8, not_lt.mp h9, not_lt.mp h10⟩
  · rintro ⟨b1, b2, b3, b4, b5, b6, b7, b8, b9, b10⟩
    unfold validateFeatures
    rw [if_neg (not_lt.mpr b1), if_neg (not_lt.mpr b2), if_neg (not_lt.mpr b3),
      if_neg (not_lt.mpr b4), if_neg (not_lt.mpr b5), if_neg (not_lt.mpr b6),
      if_neg (not_lt.mpr b7), if_neg (not_lt.mpr b8), if_neg (not_lt.mpr b9),
      if_neg (not_lt.mpr b10)]

lemma validateFeatures_not_ok (f : TransactionFeatures) (h : ¬ WithinBounds f) :
    ∃ msg, validateFeatures f = Except.error msg := by
  cases hv : validateFeatures f with
  | error msg => exact ⟨msg, rfl⟩
  | ok g =>
    have hg := validateFeatures_ok_eq f g hv
    rw [hg] at hv
    exact absurd ((validateFeatures_ok_iff f).mp hv) h

/-- C2: feature validation accepts `amountUsd = 1000000` and rejects
`amountUsd = 1000001` (inclusive ceiling); accepts `hourOfDay` 0 and 23,
rejects 24 and -1; a rejected input yields a validation error naming the
violated constraint and never a parsed `TransactionFeatures` value
(acceptance is exactly `WithinBounds`). -/
theorem validateFeatures_boundaries :
    (∀ f, validateFeatures f = Except.ok f ↔ WithinBounds f) ∧
    (∀ f g, validateFeatures f = Except.ok g → g = f) ∧
    (∀ f, ¬ WithinBounds f → ∃ msg, validateFeatures f = Except.error msg) ∧
    validateFeatures { baseFeatures with transaction_amount_usd := 1000000 } =
      Except.ok { baseFeatures with transaction_amount_usd := 1000000 } ∧
    validateFeatures { baseFeatures with transaction_amount_usd := 1000001 } =
      Except.error "Transaction amount exceeds maximum limit" ∧
    validateFeatures { baseFeatures with hour_of_day := 0 } =
      Except.ok { baseFeatures with hour_of_day := 0 } ∧
    validateFeatures { baseFeatures with hour_of_day := 23 } =
      Except.ok { baseFeatures with hour_of_day := 23 } ∧
    validateFeatures { baseFeatures with hour_of_day := 24 } =
      Except.error "hour_of_day: ensure this value is less than or equal to 23" ∧
    validateFeatures { baseFeatures with hour_of_day := -1 } =
      Except.error "hour_of_day: ensure this value is greater than or equal to 0" :=
  ⟨validateFeatures_ok_iff, validateFeatures_ok_eq, validateFeatures_not_ok,
    rfl, rfl, rfl, rfl, rfl, rfl⟩

/-- Witness for C2: the acceptance characterization evaluated at the
spec section-8 scenario features. -/
theorem validateFeatures_boundaries_witness :
    WithinBounds baseFeatures ∧ validateFeatures baseFeatures = Except.ok baseFeatures :=
  ⟨by decide, (validateFeatures_boundaries.1 baseFeatures).mpr (by decide)⟩

/-! ### C3 -/

/-- A loaded predictor whose invocation raises `ValueError`. -/
def predValueErr : List ℚ → PredOutcome := fun _ => PredOutcome.valueError "boom"

/-- A loaded predictor whose invocation raises a non-ValueError exception. -/
def predOtherErr : List ℚ → PredOutcome := fun _ => PredOutcome.otherError "cuda gone"

/-- Counterexample to C3: a `ValueError` raised while invoking the predictor
is caught by the handler's `except ValueError` branch (main.py lines
309-316), so it surfaces as a 400 ValidationError and increments the
`status=validation_error` counter — not as InternalError with `status=error`. -/
theorem predictor_valueError_counterexample :
    (score_transaction digestId (some predValueErr) reqT1 (some "cid-1") initialState).1 =
      ScoreOutcome.validationError "Invalid input: boom" ∧
    (score_transaction digestId (some predValueErr) reqT1 (some "cid-1")
        initialState).2.metrics.prediction_counter
      (MODEL_VERSION, "ERROR", "validation_error") = 1 ∧
    (score_transaction digestId (some predValueErr) reqT1 (some "cid-1")
        initialState).2.metrics.prediction_counter
      (MODEL_VERSION, "ERROR", "error") = 0 :=
  ⟨rfl, by decide, by decide⟩

/-- C3 amended: a non-ValueError failure raised while invoking the predictor
surfaces as InternalError and increments the `status=error` counter, leaving
the `validation_error` counter and the audit trail untouched; a `ValueError`
raised by the predictor instead surfaces as a 400 ValidationError and
increments the `status=validation_error` counter (also without an audit
entry). -/
theorem predictor_failure_routes :
    ∀ (digest : String → String) (pred : List ℚ → PredOutcome)
      (req : RiskScoreRequest) (hdr : Option String) (s : ServiceState) (msg : String),
      (pred (feature_vector req.features) = PredOutcome.otherError msg →
        (score_transaction digest (some pred) req hdr s).1 = ScoreOutcome.internalError ∧
        (score_transaction digest (some pred) req hdr s).2.metrics.prediction_counter
            (MODEL_VERSION, "ERROR", "error") =
          s.metrics.prediction_counter (MODEL_VERSION, "ERROR", "error") + 1 ∧
        (score_transaction digest (some pred) req hdr s).2.metrics.prediction_counter
            (MODEL_VERSION, "ERROR", "validation_error") =
          s.metrics.prediction_counter (MODEL_VERSION, "ERROR", "validation_error") ∧
        (score_transaction digest (some pred) req hdr s).2.audit_logs = s.audit_logs) ∧
      (pred (feature_vector req.features) = PredOutcome.valueError msg →
        (score_transaction digest (some pred) req hdr s).1 =
          ScoreOutcome.validationError ("Invalid input: " ++ msg) ∧
        (score_transaction digest (some pred) req hdr s).2.metrics.prediction_counter
            (MODEL_VERSION, "ERROR", "validation_error") =
          s.metrics.prediction_counter (MODEL_VERSION, "ERROR", "validation_error") + 1 ∧
        (score_transaction digest (some pred) req hdr s).2.audit_logs = s.audit_logs) := by
  intro digest pred req hdr s msg
  constructor
  · intro hp
    rw [score_transaction_otherError digest pred req hdr s msg hp]
    refine ⟨rfl, ?_, ?_, by simp⟩
    · simp [incPrediction_counter]
    · simp only [incPrediction_counter, resolve_metrics]
      rw [if_neg (by decide : ¬ ((MODEL_VERSION, "ERROR", "validation_error") =
        (MODEL_VERSION, "ERROR", "error")))]
  · intro hp
    rw [score_transaction_valueError digest pred req hdr s msg hp]
    refine ⟨rfl, ?_, by simp⟩
    simp [incPrediction_counter]

/-- Witness for C3's amended theorem: the non-ValueError branch evaluated on
a concrete predictor failure. -/
theorem predictor_failure_routes_witness :
    predOtherErr (feature_vector reqT1.features) = PredOutcome.otherError "cuda gone" ∧
    (score_transaction digestId (some predOtherErr) reqT1 (some "cid-1") initialState).1 =
      ScoreOutcome.internalError :=
  ⟨rfl, ((predictor_failure_routes digestId predOtherErr reqT1 (some "cid-1")
    initialState "cuda gone").1 rfl).1⟩

/-! ### C4 -/

lemma incPrediction_incrementedOnce (s0 s : ServiceState) (rl st : String)
    (hs : s0.metrics = s.metrics) :
    IncrementedOnce s.metrics.prediction_counter
      ((incPrediction s0 rl st).metrics.prediction_counter) :=
  ⟨(MODEL_VERSION, rl, st), fun x => by simp [incPrediction_counter, hs]⟩

lemma append_singleton_ne (l : List AuditEntry) (e : AuditEntry) :
    l ≠ l ++ [e] := by
  intro h
  have := congrArg List.length h
  simp at this

/-- C4: every invocation of the `/score` handler body updates the prediction
counter exactly once (at exactly one label cell), whatever the outcome; an
audit entry is appended if and only if the invocation returns the success
payload, and any failure leaves the audit trail exactly as it was (no
partial audit entry). -/
theorem score_metrics_once_audit_iff_success :
    ∀ (digest : String → String) (model : Option (List ℚ → PredOutcome))
      (req : RiskScoreRequest) (hdr : Option String) (s : ServiceState),
      IncrementedOnce s.metrics.prediction_counter
        ((score_transaction digest model req hdr s).2.metrics.prediction_counter) ∧
      ((∃ e, (score_transaction digest model req hdr s).2.audit_logs = s.audit_logs ++ [e]) ↔
        (∃ resp, (score_transaction digest model req hdr s).1 = ScoreOutcome.success resp)) ∧
      ((∀ resp, (score_transaction digest model req hdr s).1 ≠ ScoreOutcome.success resp) →
        (score_transaction digest model req hdr s).2.audit_logs = s.audit_logs) := by
  intro digest model req hdr s
  cases model with
  | none =>
    rw [score_transaction_none]
    refine ⟨incPrediction_incrementedOnce _ _ _ _ (resolve_metrics hdr s), ?_, fun _ => by simp⟩
    constructor
    · rintro ⟨e, he⟩
      simp only [incPrediction_audit, resolve_audit] at he
      exact absurd he (append_singleton_ne _ _)
    · rintro ⟨resp, hresp⟩
      exact ScoreOutcome.noConfusion hresp
  | some pred =>
    cases hp : pred (feature_vector req.features) with
    | ok p =>
      rw [score_transaction_ok digest pred req hdr s p hp]
      refine ⟨⟨(MODEL_VERSION, (riskPolicy p).1, "success"), fun x => ?_⟩, ?_, ?_⟩
      · simp [scoreSuccess_counter, incPrediction_counter]
      · constructor
        · intro _
          exact ⟨mkResponse digest req (resolveCorrelationId hdr s).1 p
            (resolveCorrelationId hdr s).2.clock, scoreSuccess_fst _ _ _ _ _⟩
        · intro _
          refine ⟨mkAuditEntry req (resolveCorrelationId hdr s).1 p
            (resolveCorrelationId hdr s).2.clock, ?_⟩
          rw [scoreSuccess_audit]
          simp [resolve_audit]
      · intro hne
        exact absurd (scoreSuccess_fst digest req (resolveCorrelationId hdr s).1 p
          (resolveCorrelationId hdr s).2) (hne _)
    | valueError msg =>
      rw [score_transaction_valueError digest pred req hdr s msg hp]
      refine ⟨incPrediction_incrementedOnce _ _ _ _ (resolve_metrics hdr s), ?_, fun _ => by simp⟩
      constructor
      · rintro ⟨e, he⟩
        simp only [incPrediction_audit, resolve_audit] at he
        exact absurd he (append_singleton_ne _ _)
      · rintro ⟨resp, hresp⟩
        exact ScoreOutcome.noConfusion hresp
    | otherError msg =>
      rw [score_transaction_otherError digest pred req hdr s msg hp]
      refine ⟨incPrediction_incrementedOnce _ _ _ _ (resolve_metrics hdr s), ?_, fun _ => by simp⟩
      constructor
      · rintro ⟨e, he⟩
        simp only [incPrediction_audit, resolve_audit] at he
        exact absurd he (append_singleton_ne _ _)
      · rintro ⟨resp, hresp⟩
        exact ScoreOutcome.noConfusion hresp

/-- Witness for C4: the no-success hypothesis of the third conjunct
discharged at a concrete failing scoring attempt (model not loaded). -/
theorem score_metrics_once_audit_iff_success_witness :
    (∀ resp, (score_transaction digestId none reqT1 (some "cid-1") initialState).1 ≠
      ScoreOutcome.success resp) ∧
    (score_transaction digestId none reqT1 (some "cid-1") initialState).2.audit_logs =
      initialState.audit_logs :=
  ⟨fun _ h => ScoreOutcome.noConfusion h,
    (score_metrics_once_audit_iff_success digestId none reqT1 (some "cid-1")
      initialState).2.2 (fun _ h => ScoreOutcome.noConfusion h)⟩

/-! ### C5 -/

/-- A request whose features are out of bounds (`hourOfDay = 24`). -/
def invalidHourReq : RiskScoreRequest :=
  { transaction_id := "T1", features := { baseFeatures with hour_of_day := 24 },
    customer_id := none }

/-- C5 at the failing input: a request with `hourOfDay = 24` is rejected by
request-body validation (HTTP 422) before the handler body runs, so no audit
entry is appended — but also no counter at all is incremented: the metrics
are exactly those of the pre-request state, so in particular the
`status=validation_error` counter stays 0, contradicting the claimed
increment (main.py lines 309-316 are unreachable for invalid features). -/
theorem validation_rejected_before_handler :
    (handle_score_request digestId modelLow invalidHourReq (some "cid-1") initialState).1.result =
      ScoreOutcome.unprocessable "hour_of_day: ensure this value is less than or equal to 23" ∧
    (handle_score_request digestId modelLow invalidHourReq (some "cid-1")
        initialState).2.metrics = initialState.metrics ∧
    (handle_score_request digestId modelLow invalidHourReq (some "cid-1")
        initialState).2.metrics.prediction_counter
      (MODEL_VERSION, "ERROR", "validation_error") = 0 ∧
    (handle_score_request digestId modelLow invalidHourReq (some "cid-1")
        initialState).2.audit_logs = [] :=
  ⟨rfl, rfl, rfl, rfl⟩

/-! ### C6 -/

lemma score_success_hash :
    ∀ (digest : String → String) (model : Option (List ℚ → PredOutcome))
      (req : RiskScoreRequest) (hdr : Option String) (s : ServiceState)
      (resp : RiskScoreResponse),
      (score_transaction digest model req hdr s).1 = ScoreOutcome.success resp →
      resp.features_hash = digest (featureCanonicalString req.features) := by
  intro digest model req hdr s resp h
  cases model with
  | none =>
    rw [score_transaction_none] at h
    exact ScoreOutcome.noConfusion h
  | some pred =>
    cases hp : pred (feature_vector req.features) with
    | ok p =>
      rw [score_transaction_ok digest pred req hdr s p hp, scoreSuccess_fst] at h
      injection h with h2
      rw [← h2]
      rfl
    | valueError msg =>
      rw [score_transaction_valueError digest pred req hdr s msg hp] at h
      exact ScoreOutcome.noConfusion h
    | otherError msg =>
      rw [score_transaction_otherError digest pred req hdr s msg hp] at h
      exact ScoreOutcome.noConfusion h

/-- C6: the features hash of a successful scoring response is a function of
the feature values alone — two calls whose `TransactionFeatures` are
field-for-field equal produce the identical `features_hash`, whatever the
loaded model, correlation header, service state (call order / timing), or
other request fields. -/
theorem featuresHash_deterministic :
    ∀ (digest : String → String) (m1 m2 : Option (List ℚ → PredOutcome))
      (r1 r2 : RiskScoreRequest) (h1 h2 : Option String) (s1 s2 : ServiceState),
      r1.features = r2.features →
      ∀ resp1 resp2,
        (score_transaction digest m1 r1 h1 s1).1 = ScoreOutcome.success resp1 →
        (score_transaction digest m2 r2 h2 s2).1 = ScoreOutcome.success resp2 →
        resp1.features_hash = resp2.features_hash := by
  intro digest m1 m2 r1 r2 h1 h2 s1 s2 hf resp1 resp2 e1 e2
  rw [score_success_hash digest m1 r1 h1 s1 resp1 e1,
    score_success_hash digest m2 r2 h2 s2 resp2 e2, hf]

/-- The success response of scoring `reqT1` on `modelLow` from the fresh state. -/
def respA : RiskScoreResponse := mkResponse digestId reqT1 (uuidString 0) (mkRat 1 10) 0

/-- The success response of scoring `reqT2` on `modelLow` with an explicit header. -/
def respB : RiskScoreResponse := mkResponse digestId reqT2 "abc" (mkRat 1 10) 0

/-- Witness for C6: two concrete calls, different transaction ids, customer
ids, headers — equal features, equal hash. -/
theorem featuresHash_deterministic_witness :
    reqT1.features = reqT2.features ∧
    (score_transaction digestId modelLow reqT1 none initialState).1 =
      ScoreOutcome.success respA ∧
    (score_transaction digestId modelLow reqT2 (some "abc") initialState).1 =
      ScoreOutcome.success respB ∧
    respA.features_hash = respB.features_hash :=
  ⟨rfl, rfl, rfl,
    featuresHash_deterministic digestId modelLow modelLow reqT1 reqT2 none (some "abc")
      initialState initialState rfl respA respB rfl rfl⟩

/-! ### C7 -/

/-- A concrete audit entry. -/
def auditEntry0 : AuditEntry := mkAuditEntry reqT1 "c0" (mkRat 1 10) 0

/-- Counterexample to C7: at `limit = 0` the tail read (`audit_logs[-limit:]`,
Python slice with `-0 == 0`) returns the whole log, so on a one-entry log
its length exceeds the limit. -/
theorem audit_tail_limit_zero_counterexample :
    (get_audit_logs 0 [auditEntry0]).2.length = 1 ∧
    ¬ (((get_audit_logs 0 [auditEntry0]).2.length : ℤ) ≤ 0) :=
  ⟨rfl, by decide⟩

/-- C7 amended: for every limit ≥ 1 the tail read reports the full count and
returns exactly the `min limit n` most recent entries in chronological order
(a suffix of the log) — in particular 2 entries when `limit = 2` and five
entries were appended. -/
theorem audit_tail_bounded :
    ∀ (limit : ℤ) (logs : List AuditEntry), 1 ≤ limit →
      (get_audit_logs limit logs).1 = logs.length ∧
      (get_audit_logs limit logs).2.length = min limit.toNat logs.length ∧
      (get_audit_logs limit logs).2 <:+ logs := by
  intro limit logs h
  refine ⟨rfl, ?_, ?_⟩
  · show (pythonTail limit logs).length = _
    unfold pythonTail
    rw [if_pos (by omega), List.length_drop]
    omega
  · show pythonTail limit logs <:+ logs
    unfold pythonTail
    rw [if_pos (by omega)]
    exact List.drop_suffix _ _

/-- Witness for C7's amended theorem: `limit = 2` on a five-entry log yields
exactly two entries. -/
theorem audit_tail_bounded_witness :
    (1 : ℤ) ≤ 2 ∧
    (get_audit_logs 2 (List.replicate 5 auditEntry0)).2.length =
      min (2 : ℤ).toNat (List.replicate 5 auditEntry0).length :=
  ⟨by decide, (audit_tail_bounded 2 (List.replicate 5 auditEntry0) (by decide)).2.1⟩

/-! ### C8 -/

lemma stepEvent_gauge (digest : String → String) (s : ServiceState) (e : ServiceEvent) :
    (stepEvent digest s e).metrics.high_risk_gauge =
      s.metrics.high_risk_gauge + (if isHighRiskSuccess e then 1 else 0) := by
  cases e with
  | auditRead limit => simp [stepEvent, isHighRiskSuccess]
  | scoreReq m req hdr =>
    show (handle_score_request digest m req hdr s).2.metrics.high_risk_gauge = _
    cases m with
    | none =>
      cases hv : validateFeatures req.features with
      | error msg =>
        rw [handle_score_request_invalid digest none req hdr s msg hv]
        simp [isHighRiskSuccess]
      | ok f =>
        rw [handle_score_request_valid digest none req hdr s f hv]
        rw [score_transaction_none]
        simp [isHighRiskSuccess]
    | some pred =>
      cases hv : validateFeatures req.features with
      | error msg =>
        rw [handle_score_request_invalid digest (some pred) req hdr s msg hv]
        simp [isHighRiskSuccess, hv]
      | ok f =>
        rw [handle_score_request_valid digest (some pred) req hdr s f hv]
        cases hp : pred (feature_vector req.features) with
        | ok p =>
          rw [score_transaction_ok digest pred req hdr _ p hp, scoreSuccess_gauge]
          simp only [isHighRiskSuccess, hv, hp]
          split_ifs <;> simp_all
        | valueError msg =>
          rw [score_transaction_valueError digest pred req hdr _ msg hp]
          simp [isHighRiskSuccess, hv, hp]
        | otherError msg =>
          rw [score_transaction_otherError digest pred req hdr _ msg hp]
          simp [isHighRiskSuccess, hv, hp]

lemma runTrace_gauge (digest : String → String) (es : List ServiceEvent) :
    ∀ s : ServiceState,
      (runTrace digest s es).metrics.high_risk_gauge =
        s.metrics.high_risk_gauge + es.countP isHighRiskSuccess := by
  induction es with
  | nil => intro s; simp [runTrace]
  | cons e es ih =>
    intro s
    show (runTrace digest (stepEvent digest s e) es).metrics.high_risk_gauge = _
    rw [ih, stepEvent_gauge, List.countP_cons]
    by_cases hb : isHighRiskSuccess e
    · simp [hb]
      omega
    · simp [hb]

/-- C8: over any sequence of service operations the high-risk gauge is
incremented by exactly one on each successfully scored request whose risk
level is HIGH or CRITICAL and never changed otherwise; from process start
its value equals the cumulative count of such high-risk successes (no decay,
no reset — a cumulative total, not a rolling one-hour window). -/
theorem highRiskGauge_cumulative :
    ∀ (digest : String → String) (es : List ServiceEvent) (s : ServiceState),
      (runTrace digest s es).metrics.high_risk_gauge =
        s.metrics.high_risk_gauge + es.countP isHighRiskSuccess ∧
      (runTrace digest initialState es).metrics.high_risk_gauge =
        es.countP isHighRiskSuccess := by
  intro digest es s
  refine ⟨runTrace_gauge digest es s, ?_⟩
  rw [runTrace_gauge digest es initialState]
  simp [initialState]

/-! ### C9 -/

/-- C9 at the failing input: a `/score` request with no `X-Correlation-ID`
header.  The middleware draws its own token (echoed in the response header)
and the handler independently draws a second token (used in the response
body and the audit entry): the caller is told `uuid-0` while the result and
audit trail carry `uuid-1`. -/
theorem correlation_id_mismatch :
    (handle_score_request digestId modelLow reqT1 none initialState).1.x_correlation_id_header =
      uuidString 0 ∧
    (∃ resp, (handle_score_request digestId modelLow reqT1 none initialState).1.result =
      ScoreOutcome.success resp ∧ resp.correlation_id = uuidString 1) ∧
    (handle_score_request digestId modelLow reqT1 none initialState).2.audit_logs.map
      AuditEntry.correlation_id = [uuidString 1] ∧
    uuidString 0 ≠ uuidString 1 :=
  ⟨rfl, ⟨_, rfl, rfl⟩, rfl, by decide⟩

/-! ### C10 -/

/-- C10: on the success path the audit entry records the raw, unrounded
predictor probability while the response returns it rounded to 4 decimal
places — and rounding is not the identity, so the two can differ. -/
theorem audit_raw_response_rounded :
    (∀ (digest : String → String) (pred : List ℚ → PredOutcome)
      (req : RiskScoreRequest) (hdr : Option String) (s : ServiceState) (p : ℚ),
      pred (feature_vector req.features) = PredOutcome.ok p →
      ∃ resp e,
        (score_transaction digest (some pred) req hdr s).1 = ScoreOutcome.success resp ∧
        (score_transaction digest (some pred) req hdr s).2.audit_logs = s.audit_logs ++ [e] ∧
        e.risk_score = p ∧ resp.risk_score = round4 p) ∧
    (∃ q : ℚ, round4 q ≠ q) := by
  constructor
  · intro digest pred req hdr s p hp
    rw [score_transaction_ok digest pred req hdr s p hp]
    refine ⟨mkResponse digest req (resolveCorrelationId hdr s).1 p
        (resolveCorrelationId hdr s).2.clock,
      mkAuditEntry req (resolveCorrelationId hdr s).1 p
        (resolveCorrelationId hdr s).2.clock,
      scoreSuccess_fst _ _ _ _ _, ?_, rfl, rfl⟩
    rw [scoreSuccess_audit]
    simp [resolve_audit]
  · exact ⟨mkRat 12345 100000, by decide⟩

/-- A loaded predictor returning the probability 0.12345, which rounds to
0.1234 in the response. -/
def predP : List ℚ → PredOutcome := fun _ => PredOutcome.ok (mkRat 12345 100000)

/-- Witness for C10: evaluated on a concrete request where the audited raw
score is 0.12345 and the response score is its 4-decimal rounding. -/
theorem audit_raw_response_rounded_witness :
    predP (feature_vector reqT1.features) = PredOutcome.ok (mkRat 12345 100000) ∧
    (∃ resp e,
      (score_transaction digestId (some predP) reqT1 (some "cid-1") initialState).1 =
        ScoreOutcome.success resp ∧
      (score_transaction digestId (some predP) reqT1 (some "cid-1")
          initialState).2.audit_logs = initialState.audit_logs ++ [e] ∧
      e.risk_score = mkRat 12345 100000 ∧
      resp.risk_score = round4 (mkRat 12345 100000)) :=
  ⟨rfl, audit_raw_response_rounded.1 digestId predP reqT1 (some "cid-1") initialState
    (mkRat 12345 100000) rfl⟩
